import Mathlib

/-!
# brain-server: verified shallow embedding

Shallow embedding of the parts of the `brain-server` Go repository that the
spec claims C1-C10 talk about, together with theorems settling each claim.

Modelling conventions:
* Go `float64` values (weights, confidences, ratios) are modelled as `ℚ`.
  The concrete inputs used in counterexamples and witnesses only exercise
  arithmetic that is exact in IEEE-754 double precision (multiplication by
  1, comparisons far away from representation boundaries), so the rational
  model agrees with the float computation at every evaluated input.
* `math.Exp` is not a rational function; every definition that calls it
  takes the exponential as an explicit function argument `exp : ℚ → ℚ`.
  Theorems assume only facts that hold exactly for IEEE-754 `math.Exp`
  (namely `exp 0 = 1`).
* `time.Time` values are modelled as `Int` (nanoseconds), matching Go's
  `time.Duration` integer nanosecond arithmetic.  RFC3339 UTC strings in
  the SQL layer compare lexicographically in time order, so SQL string
  comparisons on timestamps are modelled by integer comparisons.
* SQL tables are modelled as lists of row records, one structure per table;
  SQL statements become pure functions from table to table.  Primary-key
  columns are unique in any reachable table, so an UPDATE keyed on the
  primary key is modelled as updating the first matching row.
-/

namespace BrainServer

/-! ## Signal layer: constants and decay (src/internal/classifier/classifier.go,
`package signals` decay part) -/

/-- Half-life in days for the `term` signal type (`HalfLifeTerm = 3.0`). -/
def HalfLifeTerm : ℚ := 3

/-- Half-life in days for the `category` signal type (`HalfLifeCategory = 7.0`). -/
def HalfLifeCategory : ℚ := 7

/-- Half-life in days for the `project` signal type (`HalfLifeProject = 30.0`). -/
def HalfLifeProject : ℚ := 30

/-- Weight floor for ever-dominant project signals (`FloorProject = 0.02`). -/
def FloorProject : ℚ := 2 / 100

/-- Boost added per event for a `term` signal (`BoostTerm = 1.0`). -/
def BoostTerm : ℚ := 1

/-- Boost added per event for a `category` signal (`BoostCategory = 0.5`). -/
def BoostCategory : ℚ := 1 / 2

/-- Boost added per event for a `project` signal (`BoostProject = 1.0`). -/
def BoostProject : ℚ := 1

/-- Weight cap for `term` signals (`CapTerm = 10.0`). -/
def CapTerm : ℚ := 10

/-- Weight cap for `category` signals (`CapCategory = 5.0`). -/
def CapCategory : ℚ := 5

/-- Weight cap for `project` signals (`CapProject = 10.0`). -/
def CapProject : ℚ := 10

/-- `lambda` from the source: decay constant `0.693147 / halfLife`
(the source hard-codes the literal `0.693147`, not `ln 2`). -/
def lambda (halfLife : ℚ) : ℚ := (693147 / 1000000) / halfLife

/-- `getHalfLife`: half-life per signal type, defaulting to the `term`
half-life for unknown types. -/
def getHalfLife (signalType : String) : ℚ :=
  if signalType = "term" then HalfLifeTerm
  else if signalType = "category" then HalfLifeCategory
  else if signalType = "project" then HalfLifeProject
  else HalfLifeTerm

/-- `getCap`: weight cap per signal type, defaulting to the `term` cap. -/
def getCap (signalType : String) : ℚ :=
  if signalType = "term" then CapTerm
  else if signalType = "category" then CapCategory
  else if signalType = "project" then CapProject
  else CapTerm

/-- `getBoost`: boost per signal type, defaulting to the `term` boost. -/
def getBoost (signalType : String) : ℚ :=
  if signalType = "term" then BoostTerm
  else if signalType = "category" then BoostCategory
  else if signalType = "project" then BoostProject
  else BoostTerm

/-- `DecayWeight`: `newWeight = oldWeight * exp(-λ * Δdays)`, flooring at
`FloorProject` only for project signals flagged `everDominant`.  The
exponential `math.Exp` is passed explicitly as `exp`. -/
def DecayWeight (exp : ℚ → ℚ) (oldWeight daysSince : ℚ)
    (signalType : String) (everDominant : Bool) : ℚ :=
  let halfLife := getHalfLife signalType
  let lam := lambda halfLife
  let newWeight := oldWeight * exp (-(lam * daysSince))
  if signalType = "project" ∧ everDominant = true ∧ newWeight < FloorProject then
    FloorProject
  else
    newWeight

/-! ## Signals table (src/internal/db/db.go) -/

/-- One row of the `signals` table.  `lastUpdated`/`createdAt` are stored as
RFC3339 strings in SQLite; modelled as integer timestamps. -/
structure Signal where
  key : String
  type : String
  weight : ℚ
  lastUpdated : Int
  createdAt : Int
  everDominant : Bool
deriving Repr, DecidableEq

/-- `GetSignal`: `SELECT ... FROM signals WHERE key = ?`; `key` is the
primary key, so the first (only) matching row is returned. -/
def GetSignal (table : List Signal) (key : String) : Option Signal :=
  table.find? (fun s => s.key = key)

/-- `UpsertSignal`: `INSERT INTO signals (key, type, weight, last_updated,
created_at) VALUES (...) ON CONFLICT(key) DO UPDATE SET weight = ?,
last_updated = ?`.  On a fresh insert `ever_dominant` takes its column
default `0` (false); on conflict only `weight` and `last_updated` change.
`key` is the primary key, so at most one row matches. -/
def UpsertSignal (table : List Signal) (key signalType : String)
    (weight : ℚ) (now : Int) : List Signal :=
  match table with
  | [] => [{ key := key, type := signalType, weight := weight,
             lastUpdated := now, createdAt := now, everDominant := false }]
  | r :: rest =>
    if r.key = key then
      { r with weight := weight, lastUpdated := now } :: rest
    else
      r :: UpsertSignal rest key signalType weight now

/-- `BoostSignal`: lazy decay then boost then cap, finally upserted with
`last_updated = now`.  `daysSince` is `time.Since(lastUpdated)` in days;
the conversion nanoseconds → days is kept symbolic as `(now - last)/day`. -/
def nanosPerDay : Int := 86400000000000

/-- `BoostSignal` (see `nanosPerDay` for the time unit conversion). -/
def BoostSignal (exp : ℚ → ℚ) (table : List Signal)
    (key signalType : String) (now : Int) : List Signal :=
  let boost := getBoost signalType
  let cap := getCap signalType
  let newWeight :=
    match GetSignal table key with
    | none => boost
    | some existing =>
      let daysSince : ℚ := ((now - existing.lastUpdated : Int) : ℚ) / (nanosPerDay : ℚ)
      let decayedWeight :=
        DecayWeight exp existing.weight daysSince signalType existing.everDominant
      decayedWeight + boost
  let capped := if newWeight > cap then cap else newWeight
  UpsertSignal table key signalType capped now

/-! ## Pending clarifications table (src/internal/db/db.go) -/

/-- One row of the `pending_clarifications` table.  Timestamp strings are
modelled as integers (see file header). -/
structure PendingClarification where
  captureId : String
  actor : String
  rawText : String
  choices : List String
  createdAt : Int
  expiresAt : Int
  resolvedAt : Option Int
  destination : Option String
  originalTs : Int
  deviceId : String
deriving Repr, DecidableEq

/-- The per-row information `ExpirePending` returns (`ExpiredCapture`). -/
structure ExpiredCapture where
  captureId : String
  actor : String
  rawText : String
deriving Repr, DecidableEq

/-- The predicate `resolved_at IS NULL AND expires_at <= now` used by both
statements inside `ExpirePending`. -/
def dueForExpiry (now : Int) (r : PendingClarification) : Bool :=
  r.resolvedAt = none ∧ r.expiresAt ≤ now

/-- `ExpirePending`: computes `now` once, SELECTs the unresolved rows with
`expires_at <= now`, then UPDATEs those same rows setting
`resolved_at = now, destination = 'expired'`.  Returns (selected rows'
info, table after the update). -/
def ExpirePending (table : List PendingClarification) (now : Int) :
    List ExpiredCapture × List PendingClarification :=
  let expired := (table.filter (dueForExpiry now)).map
    (fun r => { captureId := r.captureId, actor := r.actor, rawText := r.rawText })
  let updated := table.map (fun r =>
    if dueForExpiry now r then
      { r with resolvedAt := some now, destination := some "expired" }
    else r)
  (expired, updated)

/-! ## Classifier (src/internal/classifier/classifier.go, `package classifier`) -/

/-- The parsed LLM reply (`models.ClassifierResult`). -/
structure ClassifierResult where
  category : String
  confidence : ℚ
  title : String
  cleanedText : String
  tags : List String
deriving Repr, DecidableEq

/-- The classifier's result (`classifier.Result`).  Go zero values for the
fields the fallback paths leave unset. -/
structure Result where
  category : String := ""
  confidence : ℚ := 0
  title : String := ""
  cleanedText : String := ""
  tags : List String := []
  needsReview : Bool := false
  choices : List String := []
  parseError : Bool := false
deriving Repr, DecidableEq

/-- The allowed category list in the order `suggestChoices` enumerates it
(`models.CategoryIdeas` .. `models.CategoryLife`). -/
def allCategories : List String := ["Ideas", "Projects", "Financial", "Health", "Life"]

/-- `suggestChoices`: primary choice first, then every category different
from it, truncated to 4 entries. -/
def suggestChoices (primaryChoice : String) : List String :=
  let choices := primaryChoice :: allCategories.filter (fun cat => cat ≠ primaryChoice)
  if choices.length > 4 then choices.take 4 else choices

/-- ASCII lowercasing of one character (`strings.ToLower` restricted to
ASCII; the category names and terms handled here are ASCII). -/
def asciiLowerChar (c : Char) : Char :=
  if 'A' ≤ c ∧ c ≤ 'Z' then Char.ofNat (c.toNat + 32) else c

/-- `strings.ToLower`, character by character. -/
def strLower (s : String) : String :=
  String.mk (s.data.map asciiLowerChar)

/-- Whitespace test of `strings.TrimSpace` (ASCII portion of
`unicode.IsSpace`). -/
def isSpaceChar (c : Char) : Bool :=
  c = ' ' ∨ c = '\t' ∨ c = '\n' ∨ c = '\r'

/-- `strings.TrimSpace`. -/
def strTrim (s : String) : String :=
  String.mk (((s.data.dropWhile isSpaceChar).reverse.dropWhile isSpaceChar).reverse)

/-- `validateCategory`: case-insensitive, whitespace-trimmed validation
against the category enum; empty string signals an invalid category. -/
def validateCategory (cat : String) : String :=
  let normalized := strLower (strTrim cat)
  if normalized = "ideas" then "Ideas"
  else if normalized = "projects" then "Projects"
  else if normalized = "financial" then "Financial"
  else if normalized = "health" then "Health"
  else if normalized = "life" then "Life"
  else ""

/-- `Classifier.Classify` after the LLM reply has arrived (the transport
call `Generate` succeeded).  `parsed` is the result of
`json.Unmarshal(response)`: `none` when the reply is not a JSON object of
the expected shape.  `threshold` is the confidence threshold (0.6 at the
call site in `NewHandlers`). -/
def Classify (threshold : ℚ) (parsed : Option ClassifierResult) : Result :=
  match parsed with
  | none =>
    { parseError := true, needsReview := true, choices := suggestChoices "" }
  | some p =>
    let validCat := validateCategory p.category
    if validCat = "" then
      { parseError := true, needsReview := true, choices := suggestChoices "" }
    else
      let base : Result :=
        { category := validCat, confidence := p.confidence, title := p.title,
          cleanedText := p.cleanedText, tags := p.tags }
      if p.confidence < threshold then
        { base with needsReview := true, choices := suggestChoices p.category }
      else base

/-! ## Pending-row creation sites (src/internal/api/handlers.go) -/

/-- The choices list `handleClassificationFailure` stores when the
classifier transport call fails: the full eight-category list
(`models.CategoryIdeas` .. `models.CategoryTasks`; the Journal,
Spirituality and Tasks constants are referenced by handlers.go and carry
the category names used throughout the vault layout). -/
def transportFailureChoices : List String :=
  ["Ideas", "Projects", "Financial", "Health", "Life", "Journal", "Spirituality", "Tasks"]

/-- The fixed choices list `handlePurchase` stores when transaction parsing
fails or has confidence below 0.5. -/
def purchaseChoices : List String :=
  ["Confirm transaction", "Not a transaction", "Rephrase"]

/-! ## Capture handler timestamp handling (src/internal/api/handlers.go,
`Handlers.Capture`) -/

/-- The decoded request body (`models.Capture`); the `version` field is
unused by the handler. -/
structure CaptureRequest where
  text : String
  tsLocal : String
  deviceId : String
  mode : String
deriving Repr, DecidableEq

/-- The early phase of `Handlers.Capture`, after the JSON body decoded:
reject empty text (`MISSING_TEXT`), default the mode to `"note"`, then
choose the capture timestamp.  `tsParsed` is the result of
`time.Parse(time.RFC3339, req.TSLocal)`: `none` when `ts_local` is not a
valid RFC3339 timestamp.  Returns the mode and timestamp that the rest of
the handler (classification, logging, vault write) proceeds with; every
later step depends on `ts_local` only through this timestamp. -/
def captureEarly (req : CaptureRequest) (tsParsed : Option Int) (now : Int) :
    Except String (String × Int) :=
  if req.text = "" then .error "MISSING_TEXT"
  else
    let mode := if req.mode = "" then "note" else req.mode
    let timestamp :=
      if req.tsLocal ≠ "" then
        match tsParsed with
        | some parsed => parsed
        | none => now
      else now
    .ok (mode, timestamp)

/-! ## Stopwords (src/internal/signals/stopwords.go) -/

/-- The fixed stopword set, flattened from the Go map literal in source
order. -/
def Stopwords : List String :=
  ["a", "an", "the",
   "i", "me", "my", "myself",
   "you", "your", "yours", "yourself",
   "he", "him", "his", "himself",
   "she", "her", "hers", "herself",
   "it", "its", "itself",
   "we", "us", "our", "ours", "ourselves",
   "they", "them", "their", "theirs", "themselves",
   "this", "that", "these", "those",
   "what", "which", "who", "whom",
   "am", "is", "are", "was", "were",
   "be", "been", "being",
   "have", "has", "had", "having",
   "do", "does", "did", "doing", "done",
   "will", "would", "shall", "should",
   "can", "could", "may", "might", "must",
   "get", "got", "getting",
   "go", "goes", "going", "went", "gone",
   "make", "made", "making",
   "take", "took", "taken", "taking",
   "come", "came", "coming",
   "see", "saw", "seen", "seeing",
   "know", "knew", "known", "knowing",
   "think", "thought", "thinking",
   "want", "wanted", "wanting",
   "need", "needed", "needing",
   "try", "tried", "trying",
   "use", "used", "using",
   "find", "found", "finding",
   "give", "gave", "given", "giving",
   "tell", "told", "telling",
   "say", "said", "saying",
   "let", "lets", "letting",
   "put", "puts", "putting",
   "keep", "kept", "keeping",
   "start", "started", "starting",
   "seem", "seemed", "seeming",
   "help", "helped", "helping",
   "show", "showed", "shown", "showing",
   "feel", "felt", "feeling",
   "look", "looked", "looking",
   "to", "of", "in", "for", "on",
   "with", "at", "by", "from", "up",
   "about", "into", "over", "after", "before",
   "between", "under", "again", "out", "off",
   "down", "through", "during", "without",
   "around", "among", "along", "across",
   "and", "but", "or", "nor", "so",
   "yet", "both", "either", "neither",
   "not", "only", "also", "just",
   "than", "then", "when", "where", "why",
   "how", "if", "because", "while", "although",
   "though", "unless", "until", "whether",
   "all", "each", "every", "any", "some",
   "no", "none", "few", "many", "much",
   "more", "most", "less", "least",
   "other", "another", "such", "same",
   "very", "really", "quite", "too",
   "always", "never", "often", "sometimes",
   "usually", "already", "still", "even",
   "now", "here", "there",
   "today", "tomorrow", "yesterday",
   "well", "back", "way",
   "yes", "ok", "okay",
   "like", "thing", "things",
   "time", "day", "days", "week", "weeks",
   "year", "years", "month", "months",
   "people", "person", "man", "woman",
   "first", "last", "next", "new", "old",
   "good", "great", "bad", "little", "big",
   "long", "right", "left", "own", "part",
   "lot", "something", "nothing", "everything",
   "anything", "someone", "anyone", "everyone",
   "maybe", "probably", "actually", "basically",
   "s", "t", "m", "d", "ll", "ve", "re"]

/-- `IsStopword`: membership in the fixed stopword set. -/
def IsStopword (word : String) : Bool :=
  Stopwords.contains word

/-! ## Term extraction and window evidence (src/internal/signals,
`selector`/`evidence` part of the signals package) -/

/-- ASCII-letter test matching the character class of the source regex
`[a-zA-Z]+`. -/
def isAsciiLetter (c : Char) : Bool :=
  decide (('a' ≤ c ∧ c ≤ 'z') ∨ ('A' ≤ c ∧ c ≤ 'Z'))

/-- Splits a character list into the maximal runs of ASCII letters, i.e.
`wordRegex.FindAllString` for the regex `[a-zA-Z]+`.  `acc` holds the
current run in reverse. -/
def letterRuns : List Char → List Char → List String
  | [], acc => if acc.isEmpty then [] else [String.mk acc.reverse]
  | c :: rest, acc =>
    if isAsciiLetter c then letterRuns rest (c :: acc)
    else if acc.isEmpty then letterRuns rest []
    else String.mk acc.reverse :: letterRuns rest []

/-- Association-list counter increment: Go `counts[word]++` on a map,
modelled with first-occurrence insertion order. -/
def bumpCount (counts : List (String × Nat)) (k : String) : List (String × Nat) :=
  if counts.any (fun p => p.1 = k) then
    counts.map (fun p => if p.1 = k then (p.1, p.2 + 1) else p)
  else counts ++ [(k, 1)]

/-- Generic insertion sort used to model `sort.Slice`.  `before a b` means
`a` may stay in front of `b`.  Go's `sort.Slice` is unstable, so the order
of elements the comparator ties is unspecified in the source; this model
fixes first-occurrence order for ties. -/
def insertSortedBy (before : α → α → Bool) (x : α) : List α → List α
  | [] => [x]
  | y :: ys => if before x y then x :: y :: ys else y :: insertSortedBy before x ys

/-- See `insertSortedBy`. -/
def insertionSortBy (before : α → α → Bool) : List α → List α
  | [] => []
  | x :: xs => insertSortedBy before x (insertionSortBy before xs)

/-- `ExtractTerms`: lowercase, split into letter runs, drop words shorter
than 3 characters and stopwords, count, sort by count descending, take the
top `maxTerms`.  Go map iteration feeds an unstable sort, so tie order is
unspecified in the source; the model keeps first-occurrence order. -/
def ExtractTerms (text : String) (maxTerms : Nat) : List String :=
  let words := letterRuns (strLower text).data []
  let counts := words.foldl
    (fun acc word =>
      if word.length < 3 then acc
      else if IsStopword word then acc
      else bumpCount acc word) []
  let sorted := insertionSortBy (fun (a b : String × Nat) => a.2 > b.2) counts
  (sorted.take maxTerms).map (fun p => p.1)

/-- A capture row as read back by `GetRecentCaptures`
(`db.CaptureRecord`); only fields used by evidence building are carried. -/
structure CaptureRecord where
  captureId : String
  actor : String
  mode : String
  rawText : String
  routedTo : String
  confidence : ℚ
  status : String
  createdAt : Int
deriving Repr, DecidableEq

/-- `signals.ProjectActivity`.  `hasNextAction`/`nextAction` keep their Go
zero values because `BuildWindowEvidence` never sets them. -/
structure ProjectActivity where
  name : String
  mentionCount : Nat
  lastMention : Int
  hasNextAction : Bool := false
  nextAction : String := ""
deriving Repr, DecidableEq

/-- `signals.ThemeCandidate`. -/
structure ThemeCandidate where
  name : String
  evidence : Nat
  sourceType : String
deriving Repr, DecidableEq

/-- `signals.WindowEvidence`; Go maps are modelled as association lists in
first-insertion order. -/
structure WindowEvidence where
  captures : List CaptureRecord
  termCounts : List (String × Nat)
  categoryCounts : List (String × Nat)
  projectActivity : List ProjectActivity
  pendingCount : Nat
  timestamps : List Int
deriving Repr, DecidableEq

/-- Project-mention bookkeeping inside `BuildWindowEvidence`: existing
project gets `MentionCount++` and a later `LastMention`; otherwise a new
entry is appended. -/
def bumpProject (projects : List ProjectActivity) (name : String) (t : Int) :
    List ProjectActivity :=
  if projects.any (fun pa => pa.name = name) then
    projects.map (fun pa =>
      if pa.name = name then
        { pa with mentionCount := pa.mentionCount + 1,
                  lastMention := if t > pa.lastMention then t else pa.lastMention }
      else pa)
  else projects ++ [{ name := name, mentionCount := 1, lastMention := t }]

/-- `BuildWindowEvidence`: per capture, count its top-10 extracted terms,
count its category (when routed), record its timestamp, and track project
activity for captures routed to Projects (project name = the capture's top
term, `"unnamed"` when it has none).  Projects are finally sorted by
mention count descending. -/
def BuildWindowEvidence (captures : List CaptureRecord) (pendingCount : Nat) :
    WindowEvidence :=
  let step := fun (ev : WindowEvidence) (c : CaptureRecord) =>
    let terms := ExtractTerms c.rawText 10
    let ev := { ev with termCounts := terms.foldl bumpCount ev.termCounts }
    let ev :=
      if c.routedTo ≠ "" then
        { ev with categoryCounts := bumpCount ev.categoryCounts c.routedTo }
      else ev
    let ev := { ev with timestamps := ev.timestamps ++ [c.createdAt] }
    if c.routedTo = "Projects" then
      let projectName := terms.headD "unnamed"
      { ev with projectActivity := bumpProject ev.projectActivity projectName c.createdAt }
    else ev
  let ev := captures.foldl step
    { captures := captures, termCounts := [], categoryCounts := [],
      projectActivity := [], pendingCount := pendingCount, timestamps := [] }
  { ev with projectActivity :=
      insertionSortBy (fun a b => a.mentionCount > b.mentionCount) ev.projectActivity }

/-- `DetectThemes`: the five evidence rules, then sort by evidence count
descending.  Go iterates its maps in unspecified order before an unstable
sort; the model uses association-list order. -/
def DetectThemes (evidence : WindowEvidence) : List ThemeCandidate :=
  let candidates := evidence.termCounts.foldl
    (fun acc p =>
      if p.2 ≥ 3 then
        acc ++ [{ name := p.1 ++ "_focus", evidence := p.2, sourceType := "term_repeat" }]
      else acc) []
  let candidates :=
    if evidence.pendingCount > 3 then
      candidates ++ [{ name := "definition_friction", evidence := evidence.pendingCount,
                       sourceType := "friction" }]
    else candidates
  let candidates :=
    match List.lookup "Health" evidence.categoryCounts with
    | some healthCount =>
      if healthCount ≥ 3 then
        candidates ++ [{ name := "health_focus", evidence := healthCount,
                         sourceType := "health_focus" }]
      else candidates
    | none => candidates
  let candidates :=
    match List.lookup "Projects" evidence.categoryCounts with
    | some projectCount =>
      if projectCount ≥ 2 then
        candidates ++ [{ name := "project_progress", evidence := projectCount,
                         sourceType := "project_focus" }]
      else candidates
    | none => candidates
  let categoryCount := evidence.categoryCounts.length
  let candidates :=
    if categoryCount ≥ 4 then
      let maxCount : Nat := evidence.categoryCounts.foldl (fun m p => max m p.2) 0
      let total : Nat := evidence.categoryCounts.foldl (fun t p => t + p.2) 0
      if total > 0 ∧ ((maxCount : ℚ) / (total : ℚ) < 4 / 10) then
        candidates ++ [{ name := "scattered_attention", evidence := categoryCount,
                         sourceType := "scattered" }]
      else candidates
    else candidates
  insertionSortBy (fun a b => a.evidence > b.evidence) candidates

/-- Two hours in nanoseconds (`2 * time.Hour`). -/
def twoHoursNs : Int := 7200000000000

/-- The consecutive gaps of a sorted timestamp list (`sorted[i]-sorted[i-1]`). -/
def gapsOf : List Int → List Int
  | a :: b :: rest => (b - a) :: gapsOf (b :: rest)
  | _ => []

/-- `DetectTemporalShape`: fewer than 3 timestamps → `"scattered"`; sort
ascending; if some 2-hour half-open window starting at a capture holds at
least 70% of the captures → `"clustered"`; otherwise `"steady"` iff the
gap variance over the squared mean gap is below 1.  Quirk kept from the
source: the variance is accumulated in nanoseconds² while the mean is
squared in seconds, so the `cv < 1` test effectively requires near-zero
variance.  The float literal `0.7` is modelled as `7/10` (the compared
ratios at every input exercised here are far from the rounding gap between
the two). -/
def DetectTemporalShape (timestamps : List Int) : String :=
  if timestamps.length < 3 then "scattered"
  else
    let sorted := insertionSortBy (fun (a b : Int) => a ≤ b) timestamps
    let total := sorted.length
    let clustered := (List.range total).any (fun i =>
      let windowEnd := sorted.getD i 0 + twoHoursNs
      let inWindow := ((sorted.drop i).takeWhile (fun t => t < windowEnd)).length
      (inWindow : ℚ) / (total : ℚ) ≥ 7 / 10)
    if clustered then "clustered"
    else
      let gaps := gapsOf sorted
      let totalGap := gaps.foldl (fun a g => a + g) 0
      let avgGap : Int := Int.tdiv totalGap (total - 1 : Nat)
      let variance : ℚ :=
        (gaps.foldl (fun acc gap => acc + ((gap - avgGap : Int) : ℚ) ^ 2) 0)
          / ((total - 1 : Nat) : ℚ)
      let avgGapSeconds : ℚ := (avgGap : ℚ) / 1000000000
      if avgGapSeconds > 0 then
        if variance / (avgGapSeconds * avgGapSeconds) < 1 then "steady" else "scattered"
      else "scattered"

/-! ## Theme & action selector and daily letter
(src/internal/signals/selector.go, src/internal/scheduler/letters.go) -/

/-- `signals.NextAction`. -/
structure NextAction where
  text : String
  source : String
  projectRef : String := ""
deriving Repr, DecidableEq

/-- `signals.TermCount`. -/
structure TermCount where
  term : String
  count : Nat
deriving Repr, DecidableEq

/-- `signals.DayProfile`; the secondary `LongTermTendencies` field (filled
from the signals table purely for prompt breadcrumbs) is omitted, every
field the letter decision logic reads is present. -/
structure DayProfile where
  date : String
  captureCount : Nat
  countsByCategory : List (String × Nat)
  topTermsInWindow : List TermCount
  projectActivity : List ProjectActivity
  pendingCount : Nat
  temporalShape : String
  themeCandidates : List ThemeCandidate
  selectedTheme : Option ThemeCandidate := none
  bestNextAction : Option NextAction := none
deriving Repr, DecidableEq

/-- `GetTopTermsFromEvidence`: term counts sorted by count descending,
truncated to `n`. -/
def GetTopTermsFromEvidence (evidence : WindowEvidence) (n : Nat) : List TermCount :=
  let terms := evidence.termCounts.map (fun p => TermCount.mk p.1 p.2)
  let sorted := insertionSortBy (fun (a b : TermCount) => a.count > b.count) terms
  if sorted.length > n then sorted.take n else sorted

/-- `BuildDayProfile` with the two database reads already performed:
`captures` is the result of `GetRecentCaptures(actor, date-24h)` and
`pendingCount` the length of `GetPending(actor)`. -/
def BuildDayProfile (captures : List CaptureRecord) (pendingCount : Nat)
    (date : String) : DayProfile :=
  let evidence := BuildWindowEvidence captures pendingCount
  { date := date,
    captureCount := captures.length,
    countsByCategory := evidence.categoryCounts,
    topTermsInWindow := GetTopTermsFromEvidence evidence 5,
    projectActivity := evidence.projectActivity,
    pendingCount := pendingCount,
    temporalShape := DetectTemporalShape evidence.timestamps,
    themeCandidates := DetectThemes evidence }

/-- `MinDailyCaptures = 1`: daily letter eligibility threshold. -/
def MinDailyCaptures : Nat := 1

/-- `MinThemeEvidence = 2`. -/
def MinThemeEvidence : Nat := 2

/-- `IsDailyEligible`: `profile.CaptureCount >= MinDailyCaptures`. -/
def IsDailyEligible (profile : DayProfile) : Bool :=
  profile.captureCount ≥ MinDailyCaptures

/-- The `Countermoves` map (fixed strings keyed by theme source type or
volume bucket), in source order. -/
def Countermoves : List (String × String) :=
  [("scattered_attention", "Consider picking one thread to pull this week"),
   ("definition_friction", "Those pending clarifications might be worth a quiet moment"),
   ("health_focus", "The body's been talking - maybe it has something to teach"),
   ("project_progress", "Good momentum on projects - what would make next week even better?"),
   ("term_repeat", "Something's been on your mind - worth exploring deeper?"),
   ("high_volume", "Lots of captures lately - anything connecting them?"),
   ("low_volume", "Quiet week - sometimes that's exactly what's needed"),
   ("projects_dominant", "Projects taking center stage - is that where you want your energy?"),
   ("health_dominant", "Health's been a theme - listening to signals from the body"),
   ("life_dominant", "Life stuff accumulating - any patterns worth noticing?"),
   ("ideas_dominant", "Ideas flowing - which ones have legs?"),
   ("default", "What would make next week feel complete?")]

/-- The actionability ranking used for evidence ties in `SelectTheme`
(Go map lookup of an absent source type yields the zero value 0). -/
def actionablePriority (sourceType : String) : Nat :=
  if sourceType = "friction" then 3
  else if sourceType = "stalled" then 2
  else if sourceType = "project_focus" then 1
  else if sourceType = "health_focus" then 1
  else if sourceType = "scattered" then 1
  else 0

/-- The tie-resolution loop of `SelectTheme`: walk the remaining sorted
candidates, stopping at the first lower evidence count, upgrading `best`
on a strictly more actionable tie. -/
def selectBest (best : ThemeCandidate) : List ThemeCandidate → ThemeCandidate
  | [] => best
  | c :: rest =>
    if c.evidence < best.evidence then best
    else
      selectBest (if actionablePriority c.sourceType > actionablePriority best.sourceType
                  then c else best) rest

/-- `SelectTheme`: `none` when there are no candidates or the top one has
evidence below `MinThemeEvidence`; otherwise the top candidate, with ties
resolved by actionability. -/
def SelectTheme (candidates : List ThemeCandidate) : Option ThemeCandidate :=
  match candidates with
  | [] => none
  | best :: rest =>
    if best.evidence < MinThemeEvidence then none
    else some (selectBest best rest)

/-- `SelectDailyAction`: project next-action, else pending clarifications,
else the countermove for the selected theme's source type, else none. -/
def SelectDailyAction (profile : DayProfile) : Option NextAction :=
  match profile.projectActivity.find?
      (fun pa => pa.hasNextAction ∧ pa.nextAction ≠ "") with
  | some pa =>
    some { text := pa.nextAction, source := "project_next", projectRef := pa.name }
  | none =>
    if profile.pendingCount > 0 then
      some { text := "You have pending clarifications to review", source := "pending_clarify" }
    else
      match profile.selectedTheme with
      | some theme =>
        match List.lookup theme.sourceType Countermoves with
        | some countermove => some { text := countermove, source := "countermove" }
        | none => none
      | none => none

/-- `ApplyThemeSelection`: sets `SelectedTheme` first, then computes
`BestNextAction` from the updated profile. -/
def ApplyThemeSelection (profile : DayProfile) : DayProfile :=
  let p := { profile with selectedTheme := SelectTheme profile.themeCandidates }
  { p with bestNextAction := SelectDailyAction p }

/-- `GetCategoryMixLabel`: the fixed label table.  The dominant category is
found by map iteration with a strict `>` comparison, so ties are resolved
in unspecified (map) order in Go; the model keeps the first entry in
association-list order.  `total/2` is Go integer division. -/
def GetCategoryMixLabel (counts : List (String × Nat)) : String :=
  if counts.isEmpty then "light capture day"
  else
    let total : Nat := counts.foldl (fun t p => t + p.2) 0
    if total < 3 then "light capture day"
    else
      let best : String × Nat := counts.foldl
        (fun m p => if p.2 > m.2 then p else m) ("", 0)
      let dominantLabel : String :=
        if (best.2 : ℚ) / (total : ℚ) > 1 / 2 then
          if best.1 = "Projects" then "mostly Projects"
          else if best.1 = "Health" then "mostly Health"
          else if best.1 = "Life" then "mostly Life"
          else if best.1 = "Ideas" then "mostly Ideas"
          else ""
        else ""
      if dominantLabel ≠ "" then dominantLabel
      else
        let healthCount := (List.lookup "Health" counts).getD 0
        let lifeCount := (List.lookup "Life" counts).getD 0
        let projectCount := (List.lookup "Projects" counts).getD 0
        if healthCount > 0 ∧ lifeCount > 0 ∧ healthCount + lifeCount > total / 2 then
          "Health and Life"
        else if projectCount > 0 ∧ healthCount > 0 ∧ projectCount + healthCount > total / 2 then
          "Projects and Health"
        else "mixed activity"

/-- The fixed silence letter (`silenceLetter` in letters.go). -/
def silenceLetter : String := "Nothing pressing today. Carry on."

/-- `formatDailyPrompt`: fills the `dailyLetterPrompt` template from the
profile. -/
def formatDailyPrompt (profile : DayProfile) : String :=
  let activityMix := GetCategoryMixLabel profile.countsByCategory
  let topTerms := profile.topTermsInWindow.map (fun tc => tc.term)
  let topTermsStr := if topTerms.isEmpty then "none detected"
                     else String.intercalate ", " topTerms
  let themeLine := match profile.selectedTheme with
    | some t => "- Detected theme: " ++ t.name ++ " (evidence: " ++ toString t.evidence ++ ")\n"
    | none => ""
  let actionLine := match profile.bestNextAction with
    | some a => "- Suggested action: " ++ a.text ++ "\n"
    | none => ""
  "You are writing a brief daily letter. The system has already analyzed today's activity.\n\n" ++
  "CONTEXT (pre-computed by system):\n" ++
  "- Date: " ++ profile.date ++ "\n" ++
  "- Capture count: " ++ toString profile.captureCount ++ "\n" ++
  "- Activity mix: " ++ activityMix ++ "\n" ++
  "- Top focus areas: " ++ topTermsStr ++ "\n" ++
  "- Temporal shape: " ++ profile.temporalShape ++ "\n" ++
  themeLine ++ actionLine ++
  "\nCONSTRAINTS:\n" ++
  "- Write 2-3 SHORT sentences maximum\n" ++
  "- Start directly, no greeting\n" ++
  "- End directly, no signoff\n" ++
  "- Warm but not saccharine\n" ++
  "- NEVER mention: money, spending, budgets, costs, prices, purchases, $, dollars\n" ++
  "- NEVER use: \"journey\", \"growth mindset\", \"self-care\", \"boundaries\", \"space for\"\n" ++
  "- Do not invent details not provided above\n" ++
  "- If action is provided, include it naturally; if not, observation only\n\n" ++
  "Write the letter now:"

/-- `GenerateDailyLetter` with the profile already built from the database
reads (see `BuildDayProfile`) and the heavy-model LLM call abstracted as
`gen : prompt → reply`: silence when not eligible, theme/action selection,
silence when neither a theme nor an action was selected, otherwise the LLM
reply for the formatted prompt. -/
def GenerateDailyLetter (gen : String → String) (profile : DayProfile) : String :=
  if !IsDailyEligible profile then silenceLetter
  else
    let profile := ApplyThemeSelection profile
    if profile.selectedTheme = none ∧ profile.bestNextAction = none then silenceLetter
    else gen (formatDailyPrompt profile)

/-! ## Journal narrator pipeline (src/internal/narrator) -/

/-- `narrator.RawEntry`; `created` as integer timestamp. -/
structure RawEntry where
  filename : String
  id : String
  created : Int
  actor : String
  device : String
  content : String
  dayDate : String
deriving Repr, DecidableEq

/-- `narrator.Claim`. -/
structure NarratorClaim where
  fact : String
  quote : String
deriving Repr, DecidableEq

/-- `narrator.ClaimSet`. -/
structure ClaimSet where
  claims : List NarratorClaim
  date : String
deriving Repr, DecidableEq

/-- `narrator.VerificationResult`. -/
structure VerificationResult where
  passed : Bool
  unsupportedClaims : List String
  feedback : String
deriving Repr, DecidableEq

/-- `narrator.NarrationMapping` (one `journal_map.jsonl` audit line). -/
structure NarrationMapping where
  day : String
  generatedAt : String
  rawFiles : List String
  model : String
  verifierPassed : Bool
deriving Repr, DecidableEq

/-- `narrator.NarrationResult`. -/
structure NarrationResult where
  narratedText : String
  claims : ClaimSet
  verified : Bool
  attempts : Nat
  rawFiles : List String
deriving Repr, DecidableEq

/-- The LLM-backed stages of the pipeline, abstracted as deterministic
functions of their prompts' inputs (the `LLMClient` capability plus the
defensive JSON parsing of each call site; an `Except.error` is a transport
or parse failure surfaced by the stage). -/
structure PipelineOracle where
  extract : List RawEntry → Except String ClaimSet
  narrate : ClaimSet → Except String String
  narrateStrict : ClaimSet → String → Except String String
  verify : ClaimSet → String → Except String VerificationResult

/-- Feedback preparation for a retry: the verifier's feedback plus the
list of unsupported statements when present. -/
def feedbackOf (result : VerificationResult) : String :=
  result.feedback ++
    (if result.unsupportedClaims.isEmpty then ""
     else "\nUnsupported statements: " ++ String.intercalate "; " result.unsupportedClaims)

/-- The narrate-verify retry loop of `Pipeline.Process`
(`for attempts < maxRetries+1 { ... }`).  `fuel` is the number of loop
iterations still allowed (`maxRetries+1 - attempts`), `narrated` the value
of the Go `narrated` variable entering the iteration.  Returns
(narrated, verified, attempts). -/
def narrationLoop (o : PipelineOracle) (claims : ClaimSet) :
    Nat → Nat → String → String → Except String (String × Bool × Nat)
  | 0, attempts, _, narrated => .ok (narrated, false, attempts)
  | fuel + 1, attempts, feedback, _ =>
    match (if attempts + 1 = 1 then o.narrate claims
           else o.narrateStrict claims feedback) with
    | .error e => .error e
    | .ok narrated =>
      match o.verify claims narrated with
      | .error e => .error e
      | .ok result =>
        if result.passed then .ok (narrated, true, attempts + 1)
        else narrationLoop o claims fuel (attempts + 1) (feedbackOf result) narrated

/-- `Pipeline.Process`: error on an empty batch; extract claims (tagging
the set with the first entry's day); error on zero claims; then the
narrate-verify loop with `maxRetries+1` allowed attempts. -/
def Process (o : PipelineOracle) (maxRetries : Nat) (entries : List RawEntry) :
    Except String NarrationResult :=
  match entries with
  | [] => .error "no entries to process"
  | e0 :: _ =>
    let filenames := entries.map (fun e => e.filename)
    match o.extract entries with
    | .error e => .error ("claim extraction failed: " ++ e)
    | .ok claims0 =>
      let claims : ClaimSet := { claims0 with date := e0.dayDate }
      if claims.claims.isEmpty then .error "no claims extracted from entries"
      else
        match narrationLoop o claims (maxRetries + 1) 0 "" "" with
        | .error e => .error e
        | .ok (narrated, verified, attempts) =>
          .ok { narratedText := narrated, claims := claims, verified := verified,
                attempts := attempts, rawFiles := filenames }

/-- `DefaultConfig` retry count (`MaxRetries: 2`). -/
def defaultMaxRetries : Nat := 2

/-- Line loop of writer.go `updateFrontmatterField` after the first line
opened the frontmatter: replace the field's line, or insert it just before
the closing `---` when absent. -/
def updateFmLines (field value : String) : List String → Bool → Bool → List String
  | [], _, _ => []
  | l :: rest, inFm, found =>
    if inFm ∧ l = "---" then
      (if found then [l] else [field ++ ": " ++ value, l]) ++
        updateFmLines field value rest false found
    else if inFm ∧ l.take (field.length + 1) = field ++ ":" then
      (field ++ ": " ++ value) :: updateFmLines field value rest inFm true
    else
      l :: updateFmLines field value rest inFm found

/-- `updateFrontmatterField`: rewrites (or inserts) one YAML frontmatter
field; content without a leading `---` line is returned unchanged. -/
def updateFrontmatterField (content field value : String) : String :=
  match content.splitOn "\n" with
  | [] => content
  | first :: rest =>
    if first = "---" then
      String.intercalate "\n" (first :: updateFmLines field value rest true false)
    else content

/-- `strings.TrimRight(s, "\n")`. -/
def trimRightNewlines (s : String) : String :=
  String.mk (s.data.reverse.dropWhile (fun c => c = '\n')).reverse

/-- `Writer.AppendToDaily` on file contents: create the daily file with
frontmatter on first write (`existing = none`), otherwise refresh the
`updated_at` frontmatter field and append the narration after a
`\n\n---\n\n` separator.  `nowStr` is the formatted current time. -/
def AppendToDaily (existing : Option String) (date narratedText nowStr : String) :
    String :=
  match existing with
  | none =>
    "---\ndate: " ++ date ++ "\nstatus: open\nupdated_at: " ++ nowStr ++
      "\n---\n\n" ++ narratedText ++ "\n"
  | some content =>
    let updated := updateFrontmatterField content "updated_at" nowStr
    trimRightNewlines updated ++ "\n\n---\n\n" ++ narratedText ++ "\n"

/-- `Narrator.processBatch` success path on in-memory state: run the
pipeline, append the narration to the day's daily file, and append an
audit mapping whose `verifier_passed` is the pipeline's `Verified` flag.
Returns (new daily file contents, new audit log). -/
def processBatch (o : PipelineOracle) (maxRetries : Nat) (modelName date : String)
    (entries : List RawEntry) (daily : Option String)
    (maps : List NarrationMapping) (genAt nowStr : String) :
    Except String (String × List NarrationMapping) :=
  match Process o maxRetries entries with
  | .error e => .error ("pipeline failed: " ++ e)
  | .ok res =>
    .ok (AppendToDaily daily date res.narratedText nowStr,
         maps ++ [{ day := date, generatedAt := genAt, rawFiles := res.rawFiles,
                    model := modelName, verifierPassed := res.verified }])

/-! ## Concrete fixtures used by witnesses (scripted fakes, in the sense of
the narrator's test seam: a deterministic stand-in for the LLM capability) -/

/-- A scripted fake LLM pipeline: claim extraction succeeds and every
verification fails, exercising the retry-exhaustion path. -/
def failVerifyOracle : PipelineOracle where
  extract := fun _ => .ok { claims := [{ fact := "went for a run", quote := "Had a good run" }], date := "" }
  narrate := fun _ => .ok "I went for a run."
  narrateStrict := fun _ _ => .ok "I went running."
  verify := fun _ _ => .ok { passed := false, unsupportedClaims := ["I also lost my keys"], feedback := "unsupported detail" }

/-- A concrete raw journal entry. -/
def sampleEntry : RawEntry :=
  { filename := "2026-02-10_090000_cap_x.md", id := "cap_x", created := 0, actor := "wolf", device := "phone", content := "Had a good run", dayDate := "2026-02-10" }

/-- The pipeline result `failVerifyOracle` produces on `[sampleEntry]`
after exhausting all `defaultMaxRetries + 1 = 3` attempts. -/
def exhaustedResult : NarrationResult :=
  { narratedText := "I went running.", claims := { claims := [{ fact := "went for a run", quote := "Had a good run" }], date := "2026-02-10" }, verified := false, attempts := 3, rawFiles := ["2026-02-10_090000_cap_x.md"] }

/-! # Theorems

One theorem (plus counterexample/witness where required) per claim,
preceded by shared helper lemmas about the embedded definitions. -/

/-- Helper: `UpsertSignal` behaves as primary-key upsert: looking the key
up afterwards yields the updated existing row, or the freshly inserted row
when the key was absent. -/
theorem GetSignal_UpsertSignal (table : List Signal) (key signalType : String)
    (weight : ℚ) (now : Int) :
    GetSignal (UpsertSignal table key signalType weight now) key =
      some (match GetSignal table key with
            | some s => { s with weight := weight, lastUpdated := now }
            | none => { key := key, type := signalType, weight := weight, lastUpdated := now, createdAt := now, everDominant := false }) := by
  induction table with
  | nil =>
    simp [UpsertSignal, GetSignal, List.find?_cons_of_pos]
  | cons r rest ih =>
    by_cases h : r.key = key
    · simp only [UpsertSignal, if_pos h, GetSignal]
      rw [List.find?_cons_of_pos _ (by simpa using h),
          List.find?_cons_of_pos _ (by simpa using h)]
    · simp only [UpsertSignal, if_neg h, GetSignal] at ih ⊢
      rw [List.find?_cons_of_neg _ (by simpa using h),
          List.find?_cons_of_neg _ (by simpa using h)]
      exact ih

/-- Helper: rows with a different key survive `UpsertSignal` unchanged. -/
theorem mem_UpsertSignal_of_ne (table : List Signal) (key signalType : String)
    (weight : ℚ) (now : Int) (r : Signal) (hr : r ∈ table) (hk : r.key ≠ key) :
    r ∈ UpsertSignal table key signalType weight now := by
  induction table with
  | nil => cases hr
  | cons s rest ih =>
    rcases List.mem_cons.mp hr with hr | hr
    · subst hr
      rw [UpsertSignal, if_neg hk]
      exact List.mem_cons_self _ _
    · by_cases h : s.key = key
      · rw [UpsertSignal, if_pos h]
        exact List.mem_cons_of_mem _ hr
      · rw [UpsertSignal, if_neg h]
        exact List.mem_cons_of_mem _ (ih hr)

/-- Helper: `UpsertSignal` introduces no row under a different key. -/
theorem mem_of_mem_UpsertSignal_ne (table : List Signal) (key signalType : String)
    (weight : ℚ) (now : Int) (r : Signal)
    (hr : r ∈ UpsertSignal table key signalType weight now) (hk : r.key ≠ key) :
    r ∈ table := by
  induction table with
  | nil =>
    rw [UpsertSignal] at hr
    rcases List.mem_cons.mp hr with hr | hr
    · exact absurd (by simp [hr]) hk
    · cases hr
  | cons s rest ih =>
    by_cases h : s.key = key
    · rw [UpsertSignal, if_pos h] at hr
      rcases List.mem_cons.mp hr with hr | hr
      · exact absurd (by simp [hr, h]) hk
      · exact List.mem_cons_of_mem _ hr
    · rw [UpsertSignal, if_neg h] at hr
      rcases List.mem_cons.mp hr with hr | hr
      · exact hr ▸ List.mem_cons_self _ _
      · exact List.mem_cons_of_mem _ (ih hr)

/-- Helper: every signal type's boost is at most its cap. -/
theorem boost_le_cap (signalType : String) : getBoost signalType ≤ getCap signalType := by
  unfold getBoost getCap
  split_ifs <;>
    norm_num [BoostTerm, BoostCategory, BoostProject, CapTerm, CapCategory, CapProject]

/-- Helper: the source's capping conditional is `min`. -/
theorem if_gt_cap_eq_min (cap x : ℚ) : (if x > cap then cap else x) = min cap x := by
  rcases le_or_lt x cap with h | h
  · rw [if_neg (not_lt.mpr h)]
    exact (min_eq_right h).symm
  · rw [if_pos h]
    exact (min_eq_left h.le).symm

/-- Claim C8 (counterexample): decaying with elapsed time 0 does not always
return the original weight.  An ever-dominant project signal whose stored
weight 0.01 lies below the 0.02 floor is raised to the floor even with no
elapsed time, so `DecayWeight(0.01, 0, project, true) = 0.02 ≠ 0.01`.
(`exp` is instantiated with the constant-1 function; the only evaluation
point is 0, where IEEE-754 `math.Exp` returns exactly 1, and
`0.01 * 1.0`, the comparison with `0.02`, and the result `0.02` are all
exact in float64.) -/
theorem decay_floor_counterexample :
    DecayWeight (fun _ => (1:ℚ)) (1/100) 0 "project" true = 1/50 ∧
    ((1:ℚ)/50 ≠ 1/100) := by
  constructor
  · norm_num [DecayWeight, getHalfLife, lambda, FloorProject]
  · norm_num

/-- Claim C8 (amended): for every stored weight `w0`, signal type and
ever-dominant flag, decaying with elapsed time 0 days returns the original
weight unchanged, unless the signal is an ever-dominant project with
weight below the 0.02 floor (which is raised to the floor).  Holds for any
exponential with `exp 0 = 1`, which is exact for `math.Exp`. -/
theorem decay_zero_days (exp : ℚ → ℚ) (w0 : ℚ) (signalType : String)
    (everDominant : Bool) (hexp : exp 0 = 1)
    (hfloor : ¬(signalType = "project" ∧ everDominant = true ∧ w0 < FloorProject)) :
    DecayWeight exp w0 0 signalType everDominant = w0 := by
  simp only [DecayWeight, mul_zero, neg_zero, hexp, mul_one]
  exact if_neg hfloor

/-- Claim C8 witness: the amended theorem at a concrete input. -/
theorem decay_zero_days_witness :
    (fun _ : ℚ => (1:ℚ)) 0 = 1 ∧ DecayWeight (fun _ => 1) 5 0 "term" false = 5 :=
  ⟨rfl, decay_zero_days (fun _ => 1) 5 "term" false rfl (by norm_num [FloorProject])⟩

/-- Claim C7: boosting the same `(key, type)` twice at the same instant,
starting from no existing signal for the key, leaves the stored row with
weight `min(cap(type), 2·boost(type))` (and `last_updated = now`,
`ever_dominant` at its default).  Holds for any exponential with
`exp 0 = 1`, which is exact for `math.Exp`. -/
theorem boost_twice (exp : ℚ → ℚ) (hexp : exp 0 = 1) (table : List Signal)
    (key signalType : String) (now : Int) (habsent : GetSignal table key = none) :
    GetSignal (BoostSignal exp (BoostSignal exp table key signalType now) key signalType now) key =
      some { key := key, type := signalType, weight := min (getCap signalType) (2 * getBoost signalType), lastUpdated := now, createdAt := now, everDominant := false } := by
  have hdec0 : DecayWeight exp (getBoost signalType) 0 signalType false = getBoost signalType := by
    simp only [DecayWeight, mul_zero, neg_zero, hexp, mul_one]
    rw [if_neg]
    rintro ⟨-, h2, -⟩
    exact Bool.false_ne_true h2
  have h1 : BoostSignal exp table key signalType now =
      UpsertSignal table key signalType (getBoost signalType) now := by
    unfold BoostSignal
    rw [habsent]
    dsimp only
    rw [if_neg (not_lt.mpr (boost_le_cap signalType))]
  have hget1 : GetSignal (BoostSignal exp table key signalType now) key =
      some { key := key, type := signalType, weight := getBoost signalType, lastUpdated := now, createdAt := now, everDominant := false } := by
    rw [h1, GetSignal_UpsertSignal, habsent]
  obtain ⟨T1, hT1, hget1'⟩ :
      ∃ T1, BoostSignal exp table key signalType now = T1 ∧
        GetSignal T1 key = some { key := key, type := signalType, weight := getBoost signalType, lastUpdated := now, createdAt := now, everDominant := false } :=
    ⟨_, rfl, hget1⟩
  rw [hT1]
  unfold BoostSignal
  rw [hget1']
  dsimp only
  rw [sub_self, Int.cast_zero, zero_div, hdec0, ← two_mul, if_gt_cap_eq_min]
  rw [GetSignal_UpsertSignal, hget1']

/-- Claim C7 witness: two term boosts at the same instant on an empty
signal table. -/
theorem boost_twice_witness :
    GetSignal ([] : List Signal) "term:sleep" = none ∧
    GetSignal (BoostSignal (fun _ => 1) (BoostSignal (fun _ => 1) [] "term:sleep" "term" 0) "term:sleep" "term" 0) "term:sleep" =
      some { key := "term:sleep", type := "term", weight := min (getCap "term") (2 * getBoost "term"), lastUpdated := 0, createdAt := 0, everDominant := false } :=
  ⟨rfl, boost_twice (fun _ => 1) rfl [] "term:sleep" "term" 0 rfl⟩

/-- Claim C10: for a key that already exists in the signals table,
`UpsertSignal` changes only the `weight` and `last_updated` columns of that
row — its `type`, `created_at` and `ever_dominant` are untouched even when
the `signalType` argument differs from the stored type — and every other
row is unchanged. -/
theorem upsert_existing_frame (table : List Signal) (key signalType : String)
    (weight : ℚ) (now : Int) (s : Signal) (h : GetSignal table key = some s) :
    GetSignal (UpsertSignal table key signalType weight now) key =
        some { s with weight := weight, lastUpdated := now }
    ∧ (∀ r ∈ table, r.key ≠ key → r ∈ UpsertSignal table key signalType weight now)
    ∧ (∀ r ∈ UpsertSignal table key signalType weight now, r.key ≠ key → r ∈ table) := by
  refine ⟨?_, ?_, ?_⟩
  · rw [GetSignal_UpsertSignal, h]
  · exact fun r hr hk => mem_UpsertSignal_of_ne table key signalType weight now r hr hk
  · exact fun r hr hk => mem_of_mem_UpsertSignal_ne table key signalType weight now r hr hk

/-- Claim C10 witness: upserting an existing `category`-typed, dominant row
under the conflicting type argument `"project"` rewrites only weight and
last-updated. -/
theorem upsert_existing_frame_witness :
    GetSignal (UpsertSignal [⟨"cat:Health", "category", 1, 0, 0, true⟩] "cat:Health" "project" 5 7) "cat:Health" =
      some { key := "cat:Health", type := "category", weight := 5, lastUpdated := 7, createdAt := 0, everDominant := true } :=
  (upsert_existing_frame [⟨"cat:Health", "category", 1, 0, 0, true⟩] "cat:Health" "project" 5 7 ⟨"cat:Health", "category", 1, 0, 0, true⟩ rfl).1

/-- Claim C5: `ExpirePending` returns exactly the info of the rows that
were unresolved with `expires_at ≤ now`; afterwards each such row carries
`resolved_at = now` and `destination = 'expired'`, all other rows are
unchanged, and no unresolved row with `expires_at ≤ now` remains. -/
theorem expirePending_spec (table : List PendingClarification) (now : Int) :
    (∀ e, e ∈ (ExpirePending table now).1 ↔
      ∃ r ∈ table, r.resolvedAt = none ∧ r.expiresAt ≤ now ∧
        e = { captureId := r.captureId, actor := r.actor, rawText := r.rawText })
    ∧ (∀ r ∈ table, r.resolvedAt = none → r.expiresAt ≤ now →
        { r with resolvedAt := some now, destination := some "expired" } ∈ (ExpirePending table now).2)
    ∧ (∀ r ∈ table, ¬(r.resolvedAt = none ∧ r.expiresAt ≤ now) → r ∈ (ExpirePending table now).2)
    ∧ (∀ r ∈ (ExpirePending table now).2, r.resolvedAt = none → now < r.expiresAt) := by
  refine ⟨?_, ?_, ?_, ?_⟩
  · intro e
    simp only [ExpirePending, List.mem_map, List.mem_filter, dueForExpiry,
      Bool.decide_and, Bool.and_eq_true, decide_eq_true_eq]
    constructor
    · rintro ⟨r, ⟨hr, h1, h2⟩, rfl⟩
      exact ⟨r, hr, h1, h2, rfl⟩
    · rintro ⟨r, hr, h1, h2, rfl⟩
      exact ⟨r, ⟨hr, h1, h2⟩, rfl⟩
  · intro r hr h1 h2
    simp only [ExpirePending, List.mem_map]
    refine ⟨r, hr, ?_⟩
    rw [if_pos]
    simp [dueForExpiry, h1, h2]
  · intro r hr h
    simp only [ExpirePending, List.mem_map]
    refine ⟨r, hr, ?_⟩
    rw [if_neg]
    simp only [dueForExpiry, Bool.decide_and, Bool.and_eq_true, decide_eq_true_eq]
    exact fun hc => h hc
  · intro r hr hres
    simp only [ExpirePending, List.mem_map] at hr
    obtain ⟨r0, _, hr0⟩ := hr
    by_cases hdue : dueForExpiry now r0 = true
    · rw [if_pos hdue] at hr0
      subst hr0
      cases hres
    · rw [if_neg hdue] at hr0
      subst hr0
      simp only [dueForExpiry, Bool.decide_and, Bool.and_eq_true, decide_eq_true_eq] at hdue
      push_neg at hdue
      exact hdue hres

/-- Claim C5 witness: a two-row table at `now = 100`, one row due (expires
at 50) and one not (expires at 200). -/
theorem expirePending_spec_witness :
    ({ captureId := "cap1", actor := "wolf", rawText := "old", choices := ["Ideas"], createdAt := 0, expiresAt := 50, resolvedAt := some 100, destination := some "expired", originalTs := 0, deviceId := "d" } : PendingClarification) ∈
      (ExpirePending [⟨"cap1", "wolf", "old", ["Ideas"], 0, 50, none, none, 0, "d"⟩, ⟨"cap2", "wolf", "new", ["Ideas"], 0, 200, none, none, 0, "d"⟩] 100).2
    ∧ (⟨"cap2", "wolf", "new", ["Ideas"], 0, 200, none, none, 0, "d"⟩ : PendingClarification) ∈
      (ExpirePending [⟨"cap1", "wolf", "old", ["Ideas"], 0, 50, none, none, 0, "d"⟩, ⟨"cap2", "wolf", "new", ["Ideas"], 0, 200, none, none, 0, "d"⟩] 100).2
    ∧ (⟨"cap1", "wolf", "old"⟩ : ExpiredCapture) ∈
      (ExpirePending [⟨"cap1", "wolf", "old", ["Ideas"], 0, 50, none, none, 0, "d"⟩, ⟨"cap2", "wolf", "new", ["Ideas"], 0, 200, none, none, 0, "d"⟩] 100).1 := by
  refine ⟨?_, ?_, ?_⟩
  · exact (expirePending_spec [⟨"cap1", "wolf", "old", ["Ideas"], 0, 50, none, none, 0, "d"⟩, ⟨"cap2", "wolf", "new", ["Ideas"], 0, 200, none, none, 0, "d"⟩] 100).2.1 ⟨"cap1", "wolf", "old", ["Ideas"], 0, 50, none, none, 0, "d"⟩ (by decide) rfl (by decide)
  · exact (expirePending_spec [⟨"cap1", "wolf", "old", ["Ideas"], 0, 50, none, none, 0, "d"⟩, ⟨"cap2", "wolf", "new", ["Ideas"], 0, 200, none, none, 0, "d"⟩] 100).2.2.1 ⟨"cap2", "wolf", "new", ["Ideas"], 0, 200, none, none, 0, "d"⟩ (by decide) (by decide)
  · exact ((expirePending_spec [⟨"cap1", "wolf", "old", ["Ideas"], 0, 50, none, none, 0, "d"⟩, ⟨"cap2", "wolf", "new", ["Ideas"], 0, 200, none, none, 0, "d"⟩] 100).1 ⟨"cap1", "wolf", "old"⟩).mpr ⟨⟨"cap1", "wolf", "old", ["Ideas"], 0, 50, none, none, 0, "d"⟩, by decide, rfl, by decide, rfl⟩

/-- Claim C3 (counterexample): when the LLM reply cannot be parsed, the
classifier sets `parse_error` and `needs_review` but its choices are NOT
`ALL_CATEGORIES[:4]`: `suggestChoices("")` puts the empty primary choice
first, yielding `["", "Ideas", "Projects", "Financial"]`. -/
theorem classify_parse_error_counterexample :
    (Classify (6/10) none).parseError = true ∧
    (Classify (6/10) none).needsReview = true ∧
    (Classify (6/10) none).choices = ["", "Ideas", "Projects", "Financial"] ∧
    (Classify (6/10) none).choices ≠ allCategories.take 4 := by
  refine ⟨rfl, rfl, ?_, ?_⟩
  · show suggestChoices "" = _
    decide
  · show suggestChoices "" ≠ _
    decide

/-- Claim C3 (amended): for every classification call whose reply arrives
but cannot be parsed as a JSON object (or names a category outside the
allowed enum), the classifier returns `parse_error = true`,
`needs_review = true`, and choices equal to the empty string followed by
the first three entries of the allowed category list. -/
theorem classify_parse_error_spec (threshold : ℚ) (parsed : Option ClassifierResult)
    (h : ∀ p, parsed = some p → validateCategory p.category = "") :
    (Classify threshold parsed).parseError = true ∧
    (Classify threshold parsed).needsReview = true ∧
    (Classify threshold parsed).choices = "" :: allCategories.take 3 := by
  cases parsed with
  | none =>
    refine ⟨rfl, rfl, ?_⟩
    show suggestChoices "" = _
    decide
  | some p =>
    have hv := h p rfl
    refine ⟨?_, ?_, ?_⟩ <;> simp only [Classify, hv, eq_self_iff_true, if_true]
    show suggestChoices "" = _
    decide

/-- Claim C3 witness: the amended theorem at a parsed reply whose category
`"Nonsense"` is outside the enum. -/
theorem classify_parse_error_spec_witness :
    (Classify (6/10) (some ⟨"Nonsense", 9/10, "", "", []⟩)).parseError = true ∧
    (Classify (6/10) (some ⟨"Nonsense", 9/10, "", "", []⟩)).needsReview = true ∧
    (Classify (6/10) (some ⟨"Nonsense", 9/10, "", "", []⟩)).choices =
      "" :: allCategories.take 3 :=
  classify_parse_error_spec (6/10) _ (by intro p hp; cases hp; decide)

/-- Claim C4 (counterexample): the pending row created by the
classifier-transport-failure fallback carries the full eight-category
choices list — more than 4 entries. -/
theorem pending_choices_counterexample :
    transportFailureChoices.length = 8 ∧ ¬(transportFailureChoices.length ≤ 4) := by
  decide

/-- Claim C4 (amended): pending rows created from a low-confidence review
or a parse error (`suggestChoices`) and from a purchase clarification have
at most 4 choices, but the classifier-transport-failure fallback stores
the full 8-entry category list. -/
theorem pending_choices_bounds :
    (∀ primaryChoice, (suggestChoices primaryChoice).length ≤ 4) ∧
    purchaseChoices.length ≤ 4 ∧ transportFailureChoices.length = 8 := by
  refine ⟨fun primary => ?_, by decide, by decide⟩
  unfold suggestChoices
  by_cases h : (primary :: allCategories.filter (fun cat => cat ≠ primary)).length > 4
  · rw [if_pos h]
    simp [List.length_take]
  · rw [if_neg h]
    omega

/-- Claim C9: a capture request whose non-empty `ts_local` fails RFC3339
parsing is not rejected: the handler substitutes the current server time
and proceeds exactly as it would had `ts_local` parsed to that time. -/
theorem capture_bad_timestamp (req : CaptureRequest) (now : Int)
    (htext : req.text ≠ "") (hts : req.tsLocal ≠ "") :
    captureEarly req none now = .ok ((if req.mode = "" then "note" else req.mode), now)
    ∧ captureEarly req none now = captureEarly req (some now) now := by
  constructor
  · simp [captureEarly, htext, hts]
  · simp [captureEarly, htext, hts]

/-- Claim C9 witness: a concrete request with an unparseable timestamp. -/
theorem capture_bad_timestamp_witness :
    captureEarly ⟨"hello", "not-a-timestamp", "d1", "note"⟩ none 42 = .ok ("note", 42)
    ∧ captureEarly ⟨"hello", "not-a-timestamp", "d1", "note"⟩ none 42 =
      captureEarly ⟨"hello", "not-a-timestamp", "d1", "note"⟩ (some 42) 42 :=
  capture_bad_timestamp _ 42 (by decide) (by decide)

/-- Claim C6 (counterexample): three timestamps whose total span is exactly
2 hours (so "at most 2 h") are NOT classified `"clustered"`: the window
check uses a strict `<` against `start + 2h`, and the evenly spaced gaps
then satisfy the steadiness test, so the result is `"steady"`. -/
theorem temporal_two_hour_counterexample :
    (7200000000000 : Int) - 0 ≤ twoHoursNs ∧
    DetectTemporalShape [0, 3600000000000, 7200000000000] = "steady" ∧
    ("steady" : String) ≠ "clustered" := by
  have ht : Int.tdiv 7200000000000 2 = 3600000000000 := by decide
  refine ⟨by norm_num [twoHoursNs], ?_, by decide⟩
  norm_num [DetectTemporalShape, insertionSortBy, insertSortedBy, gapsOf, twoHoursNs,
    List.range_succ, List.any_cons, List.any_nil, List.takeWhile, List.getD,
    ht, List.foldl]

/-- Claim C6 (amended): for every list of exactly 3 capture timestamps
whose total span is strictly below 2 hours, the temporal-shape detector
returns `"clustered"` (stated for an ascending listing of the three
timestamps; the detector sorts its input first). -/
theorem temporal_three_clustered (t0 t1 t2 : Int)
    (h01 : t0 ≤ t1) (h12 : t1 ≤ t2) (hspan : t2 - t0 < twoHoursNs) :
    DetectTemporalShape [t0, t1, t2] = "clustered" := by
  have hsort : insertionSortBy (fun (a b : Int) => a ≤ b) [t0, t1, t2] = [t0, t1, t2] := by
    simp [insertionSortBy, insertSortedBy, h01, h12]
  have h0 : t0 < t0 + twoHoursNs := by
    have : (0:Int) < twoHoursNs := by norm_num [twoHoursNs]
    omega
  have h1 : t1 < t0 + twoHoursNs := by omega
  have h2 : t2 < t0 + twoHoursNs := by omega
  have hcluster : ((List.range 3).any fun i =>
      decide ((((List.takeWhile (fun t => decide (t < [t0, t1, t2].getD i 0 + twoHoursNs))
        (List.drop i [t0, t1, t2])).length : ℚ) / ((3:Nat) : ℚ) ≥ 7 / 10))) = true := by
    apply List.any_eq_true.mpr
    refine ⟨0, by simp, ?_⟩
    simp only [List.getD, List.drop, List.takeWhile]
    norm_num [h0, h1, h2]
  rw [DetectTemporalShape]
  rw [if_neg (by norm_num)]
  rw [hsort]
  dsimp only
  rw [show [t0, t1, t2].length = 3 from rfl]
  rw [hcluster]
  rfl

/-- Claim C6 witness: three timestamps one minute apart. -/
theorem temporal_three_clustered_witness :
    (0:Int) ≤ 60000000000 ∧ (60000000000:Int) ≤ 120000000000 ∧
    ((120000000000:Int) - 0 < twoHoursNs) ∧
    DetectTemporalShape [0, 60000000000, 120000000000] = "clustered" :=
  ⟨by norm_num, by norm_num, by norm_num [twoHoursNs],
   temporal_three_clustered 0 60000000000 120000000000 (by norm_num) (by norm_num)
     (by norm_num [twoHoursNs])⟩

/-- Claim C2 (counterexample): a window with only 2 captures (fewer than 3)
does NOT abort with the silence string: two captures routed to Projects
produce the `project_progress` theme (evidence 2 ≥ 2), so the generator
builds a prompt and returns the LLM reply. -/
theorem daily_letter_counterexample :
    (BuildDayProfile [⟨"cap_a", "wolf", "note", "", "Projects", 9/10, "filed", 0⟩, ⟨"cap_b", "wolf", "note", "", "Projects", 9/10, "filed", 3600000000000⟩] 0 "2026-02-10").captureCount = 2 ∧
    (2:Nat) < 3 ∧
    GenerateDailyLetter (fun _ => "LETTER")
      (BuildDayProfile [⟨"cap_a", "wolf", "note", "", "Projects", 9/10, "filed", 0⟩, ⟨"cap_b", "wolf", "note", "", "Projects", 9/10, "filed", 3600000000000⟩] 0 "2026-02-10") = "LETTER" ∧
    ("LETTER" : String) ≠ silenceLetter := by
  exact ⟨rfl, by decide, rfl, by decide⟩

/-- Claim C2 (amended): when the window holds 0 captures, daily letter
generation aborts with the fixed silence string for every possible LLM
(`gen` is never consulted); with 1 or 2 captures it may proceed to the
LLM. -/
theorem daily_letter_zero_captures (pendingCount : Nat) (date : String)
    (gen : String → String) :
    GenerateDailyLetter gen (BuildDayProfile [] pendingCount date) = silenceLetter := rfl

/-- Helper: invariant of the narrate-verify loop.  If the incoming
`narr` value carries a failed verification (true of every recursive call),
then on success the attempt counter grew by at most `fuel` (exactly `fuel`
when verification never passed), and the returned narration's verification
result equals the returned `verified` flag. -/
theorem narrationLoop_ok (o : PipelineOracle) (claims : ClaimSet) :
    ∀ (fuel attempts : Nat) (feedback narr : String) (n : String) (v : Bool) (a : Nat),
      (∃ vr, o.verify claims narr = .ok vr ∧ vr.passed = false) →
      narrationLoop o claims fuel attempts feedback narr = .ok (n, v, a) →
      attempts ≤ a ∧ a ≤ attempts + fuel
      ∧ (∃ vr, o.verify claims n = .ok vr ∧ vr.passed = v)
      ∧ (v = false → a = attempts + fuel) := by
  intro fuel
  induction fuel with
  | zero =>
    intro attempts fb narr n v a hn h
    simp only [narrationLoop, Except.ok.injEq, Prod.mk.injEq] at h
    obtain ⟨h1, h2, h3⟩ := h
    subst h1; subst h2; subst h3
    exact ⟨le_refl _, by omega, hn, fun _ => by omega⟩
  | succ fuel ih =>
    intro attempts fb narr n v a hn h
    rw [narrationLoop] at h
    cases hnar : (if attempts + 1 = 1 then o.narrate claims
                  else o.narrateStrict claims fb) with
    | error e => rw [hnar] at h; cases h
    | ok n1 =>
      rw [hnar] at h
      dsimp only at h
      cases hver : o.verify claims n1 with
      | error e => rw [hver] at h; dsimp only at h; cases h
      | ok vr =>
        rw [hver] at h
        dsimp only at h
        by_cases hp : vr.passed = true
        · rw [if_pos hp] at h
          simp only [Except.ok.injEq, Prod.mk.injEq] at h
          obtain ⟨h1, h2, h3⟩ := h
          subst h1; subst h2; subst h3
          exact ⟨by omega, by omega, ⟨vr, hver, hp⟩, fun hc => by simp at hc⟩
        · rw [if_neg hp] at h
          have hfail : vr.passed = false := Bool.eq_false_iff.mpr hp
          obtain ⟨ha1, ha2, hex, hlast⟩ := ih (attempts + 1) (feedbackOf vr) n1 n v a ⟨vr, hver, hfail⟩ h
          exact ⟨by omega, by omega, hex, fun hv => by have := hlast hv; omega⟩

/-- Helper: the daily-file content produced by `AppendToDaily` always ends
with the narration followed by a newline, in both the create and the
append branch. -/
theorem appendToDaily_suffix (daily : Option String) (date narratedText nowStr : String) :
    (narratedText ++ "\n").data <:+ (AppendToDaily daily date narratedText nowStr).data := by
  cases daily with
  | none =>
    refine ⟨("---\ndate: " ++ date ++ "\nstatus: open\nupdated_at: " ++ nowStr ++ "\n---\n\n").data, ?_⟩
    simp [AppendToDaily, String.data_append]
  | some content =>
    refine ⟨(trimRightNewlines (updateFrontmatterField content "updated_at" nowStr) ++ "\n\n---\n\n").data, ?_⟩
    simp [AppendToDaily, String.data_append]

/-- Claim C1: whenever the narration pipeline succeeds on a batch, it made
between 1 and `maxRetries + 1` narration attempts; the returned
`verified` flag equals the passed/failed outcome of verifying the returned
narration (so an attempt that passes stops the loop with
`verified = true`); `verified = false` happens only after exhausting all
`maxRetries + 1` attempts; and `processBatch` still commits the last
narration — it is appended (with trailing newline) at the end of the daily
file and an audit mapping with `verifier_passed = verified` is appended to
the journal map. -/
theorem narration_pipeline_spec (o : PipelineOracle) (maxRetries : Nat)
    (modelName date genAt nowStr : String) (entries : List RawEntry)
    (daily : Option String) (maps : List NarrationMapping) (res : NarrationResult)
    (h : Process o maxRetries entries = .ok res) :
    1 ≤ res.attempts ∧ res.attempts ≤ maxRetries + 1
    ∧ (∃ vr, o.verify res.claims res.narratedText = .ok vr ∧ vr.passed = res.verified)
    ∧ (res.verified = false → res.attempts = maxRetries + 1)
    ∧ processBatch o maxRetries modelName date entries daily maps genAt nowStr =
        .ok (AppendToDaily daily date res.narratedText nowStr,
             maps ++ [{ day := date, generatedAt := genAt, rawFiles := res.rawFiles, model := modelName, verifierPassed := res.verified }])
    ∧ (res.narratedText ++ "\n").data <:+ (AppendToDaily daily date res.narratedText nowStr).data := by
  have hbatch : processBatch o maxRetries modelName date entries daily maps genAt nowStr =
      .ok (AppendToDaily daily date res.narratedText nowStr,
           maps ++ [{ day := date, generatedAt := genAt, rawFiles := res.rawFiles, model := modelName, verifierPassed := res.verified }]) := by
    rw [processBatch, h]
  refine ⟨?_, ?_, ?_, ?_, hbatch, appendToDaily_suffix daily date res.narratedText nowStr⟩
    <;> clear hbatch
  all_goals {
    cases entries with
    | nil => rw [Process] at h; cases h
    | cons e0 rest =>
      rw [Process] at h
      cases hext : o.extract (e0 :: rest) with
      | error e => rw [hext] at h; dsimp only at h; cases h
      | ok claims0 =>
        rw [hext] at h
        dsimp only at h
        by_cases hemp : claims0.claims.isEmpty = true
        · rw [if_pos hemp] at h; cases h
        · rw [if_neg hemp] at h
          cases hloop : narrationLoop o { claims0 with date := e0.dayDate } (maxRetries + 1) 0 "" "" with
          | error e => rw [hloop] at h; cases h
          | ok triple =>
            obtain ⟨n, v, a⟩ := triple
            rw [hloop] at h
            dsimp only at h
            rw [narrationLoop] at hloop
            cases hnar : o.narrate { claims0 with date := e0.dayDate } with
            | error e => rw [if_pos rfl, hnar] at hloop; dsimp only at hloop; cases hloop
            | ok n1 =>
              rw [if_pos rfl, hnar] at hloop
              dsimp only at hloop
              cases hver : o.verify { claims0 with date := e0.dayDate } n1 with
              | error e => rw [hver] at hloop; dsimp only at hloop; cases hloop
              | ok vr =>
                rw [hver] at hloop
                dsimp only at hloop
                by_cases hp : vr.passed = true
                · rw [if_pos hp] at hloop
                  simp only [Except.ok.injEq, Prod.mk.injEq] at hloop
                  obtain ⟨h1, h2, h3⟩ := hloop
                  subst h1; subst h2; subst h3
                  cases h
                  first
                  | exact le_refl 1
                  | exact Nat.le_add_left 1 maxRetries
                  | exact ⟨vr, hver, hp⟩
                  | exact fun hc => by simp at hc
                · rw [if_neg hp] at hloop
                  have hfail : vr.passed = false := Bool.eq_false_iff.mpr hp
                  obtain ⟨ha1, ha2, hex, hlast⟩ :=
                    narrationLoop_ok o { claims0 with date := e0.dayDate } maxRetries 1
                      (feedbackOf vr) n1 n v a ⟨vr, hver, hfail⟩ hloop
                  cases h
                  first
                  | exact ha1
                  | (dsimp only; omega)
                  | exact hex
                  | (intro hv; dsimp only at hv; have := hlast hv; dsimp only; omega)
  }

/-- Claim C1 witness: the scripted always-fail verifier exhausts all 3
default attempts, and the batch is still committed with
`verifier_passed = false`. -/
theorem narration_pipeline_spec_witness :
    Process failVerifyOracle defaultMaxRetries [sampleEntry] = .ok exhaustedResult ∧
    (1 ≤ exhaustedResult.attempts ∧ exhaustedResult.attempts ≤ defaultMaxRetries + 1
     ∧ (∃ vr, failVerifyOracle.verify exhaustedResult.claims exhaustedResult.narratedText = .ok vr ∧ vr.passed = exhaustedResult.verified)
     ∧ (exhaustedResult.verified = false → exhaustedResult.attempts = defaultMaxRetries + 1)
     ∧ processBatch failVerifyOracle defaultMaxRetries "qwen2.5:14b" "2026-02-10" [sampleEntry] none [] "gen-at" "now-str" =
         .ok (AppendToDaily none "2026-02-10" exhaustedResult.narratedText "now-str",
              [] ++ [{ day := "2026-02-10", generatedAt := "gen-at", rawFiles := exhaustedResult.rawFiles, model := "qwen2.5:14b", verifierPassed := exhaustedResult.verified }])
     ∧ (exhaustedResult.narratedText ++ "\n").data <:+ (AppendToDaily none "2026-02-10" exhaustedResult.narratedText "now-str").data) :=
  ⟨rfl, narration_pipeline_spec failVerifyOracle defaultMaxRetries "qwen2.5:14b" "2026-02-10"
    "gen-at" "now-str" [sampleEntry] none [] exhaustedResult rfl⟩

end BrainServer
